import Mathlib

/-!
Shallow embedding of `unshared_vk/spy.py`: the VK "unshared groups" finder.

The embedding covers:
* the two VKScript batch templates (`GET_MAIN_USER_INFO_REQUEST_CODE`,
  `CHECK_SPECIAL_GROUP_REQUEST_CODE`) both as the literal script text produced
  by Python `str.format` and as their server-side evaluation semantics
  (pagination loops, membership slice-counting loop);
* the retrying transport `do_execute_request`;
* the orchestrator `find_unshared_groups`, recording the result list, every
  value passed to the injected progress callback (Python floats modelled as
  exact rationals), and every script text handed to the transport.
-/

/-- One VK user record as returned by `API.users.get`.  The Python code tests
`'deactivated' in user[0]` for key presence, modelled as `Option.isSome`. -/
structure VKUser where
  id : Nat
  first_name : String
  last_name : String
  deactivated : Option String
deriving DecidableEq, Repr

instance : Inhabited VKUser := ⟨⟨0, "", "", none⟩⟩

/-- Group metadata returned by `API.groups.getById` (with `members_count`). -/
structure GroupMeta where
  id : Nat
  name : String
  screen_name : String
  members_count : Nat
deriving DecidableEq, Repr

instance : Inhabited GroupMeta := ⟨⟨0, "", "", 0⟩⟩

/-- The remote VK data the batch scripts run against: the `users.get` answer
for the requested identifier, the full group and friend lists (the paged API
calls serve slices of these), the `groups.isMember` oracle and the
`groups.getById` metadata. -/
structure VKData where
  users : List VKUser
  groupsList : List Nat
  friendsList : List Nat
  isMember : Nat → Nat → Bool
  groupMeta : Nat → GroupMeta

/-!
## VKScript template texts

Python's `str.format` interpolates `{user_id}` etc. verbatim (no escaping) and
rewrites `{{`/`}}` to literal braces.  The functions below produce exactly the
formatted script text; the interpolation points are `++ arg ++`.
-/

/-- `GET_MAIN_USER_INFO_REQUEST_CODE.format(user_id=…, group_step=…,
friend_step=…)`: the summary batch script (user record, paginated group list,
paginated friend list).  Braces are written with `\x7b`/`\x7d` escapes. -/
def GET_MAIN_USER_INFO_REQUEST_CODE
    (user_id group_step friend_step : String) : String :=
  "\n    var user_id = \"" ++ user_id ++ "\";\n" ++
  "    var group_step = " ++ group_step ++ ";\n" ++
  "    var friend_step = " ++ friend_step ++ ";\n" ++
  "    \n" ++
  "    var user = API.users.get(\x7buser_ids: user_id\x7d);\n" ++
  "    var uid = user[0].id;\n" ++
  "    \n" ++
  "    var groups = API.groups.get(\x7buser_id: uid, count: group_step\x7d);\n" ++
  "    \n" ++
  "    var i = group_step;\n" ++
  "    var count = groups.count;\n" ++
  "    \n" ++
  "    while(i < count)\n" ++
  "    \x7b\n" ++
  "      groups.items = groups.items\n" ++
  "        + API.groups.get(\x7buser_id:uid, count: group_step, offset: i\x7d)\n" ++
  "          .items;\n" ++
  "      i = i + group_step;\n" ++
  "    \x7d\n" ++
  "    \n" ++
  "    var friends = API.friends.get(\x7buser_id:uid, count: friend_step\x7d);\n" ++
  "    \n" ++
  "    i = friend_step;\n" ++
  "    count = friends.count;\n" ++
  "    \n" ++
  "    while(i < count)\n" ++
  "    \x7b\n" ++
  "      friends.items = friends.items\n" ++
  "        + API.friends.get(\x7buser_id:uid, count: friend_step, offset: i\x7d)\n" ++
  "          .items;\n" ++
  "      i = i + friend_step;\n" ++
  "    \x7d\n" ++
  "    \n" ++
  "    return \x7buser: user, groups: groups, friends: friends\x7d;\n"

/-- `CHECK_SPECIAL_GROUP_REQUEST_CODE.format(user_id=…, group_id=…,
members_threshold=…, friend_load_step=…, friend_is_member_step=…)`: the
per-group membership-check batch script. -/
def CHECK_SPECIAL_GROUP_REQUEST_CODE
    (user_id group_id members_threshold friend_load_step
     friend_is_member_step : String) : String :=
  "\n    var user_id = \"" ++ user_id ++ "\";\n" ++
  "    var group_id = \"" ++ group_id ++ "\";\n" ++
  "    var members_threshold = " ++ members_threshold ++ ";\n" ++
  "    var friend_load_step = " ++ friend_load_step ++ ";\n" ++
  "    var friend_is_member_step = " ++ friend_is_member_step ++ ";\n" ++
  "    \n" ++
  "    var user = API.users.get(\x7buser_ids: user_id\x7d);\n" ++
  "    var uid = user[0].id;\n" ++
  "    \n" ++
  "    var friends = API.friends.get(\x7buser_id:uid, count: friend_load_step\x7d);\n" ++
  "    \n" ++
  "    var i = friend_load_step;\n" ++
  "    var count = friends.count;\n" ++
  "    \n" ++
  "    while(i < count)\n" ++
  "    \x7b\n" ++
  "      friends.items = friends.items\n" ++
  "        + API.friends.get(\x7buser_id:uid, count: friend_load_step, offset: i\x7d)\n" ++
  "          .items;\n" ++
  "      i = i + friend_load_step;\n" ++
  "    \x7d\n" ++
  "    \n" ++
  "    var sum = 0;\n" ++
  "    var slice = 0;\n" ++
  "    count = friends.length;\n" ++
  "    \n" ++
  "    while(slice < count)\n" ++
  "    \x7b\n" ++
  "      var member_flags =\n" ++
  "        API.groups.isMember(\x7bgroup_id: group_id,\n" ++
  "                             user_ids:\n" ++
  "                                 friends.items.slice(slice,\n" ++
  "                                   slice + friend_is_member_step)\n" ++
  "                             \x7d\n" ++
  "                           )@.member;\n" ++
  "    \n" ++
  "      sum = sum + ((member_flags+\"\").split(0)+\"\").split(1).length-1;\n" ++
  "      \n" ++
  "      slice = slice + friend_is_member_step;\n" ++
  "    \x7d\n" ++
  "    \n" ++
  "    \n" ++
  "    return \x7buser: user,\n" ++
  "             special_group: (sum <= members_threshold),\n" ++
  "             friends_in_group: sum,\n" ++
  "             group: API.groups.getById(\x7bgroup_id: group_id,\n" ++
  "               fields: [\"members_count\"]\x7d)\n" ++
  "             \x7d;\n"

/-!
## Server-side pagination loop semantics

Both templates contain the same loop shape: one unconditional first call
fetching up to `step` items at offset 0, then
`i = step; while (i < count) { items += get(offset: i, count: step); i += step }`
where `count` is the total item count reported by the first call.
A server call at `offset`, `count: step` returns `(src.drop offset).take step`.
(For `step = 0` the server-side loop would not terminate; the model's guard
requires `0 < step` and all claims about the loop assume `1 ≤ step`.)
-/

/-- The pages fetched by the `while(i < count)` loop, starting at offset `i`. -/
def pagesLoop (src : List Nat) (step i : Nat) : List (List Nat) :=
  if _h : i < src.length ∧ 0 < step then
    (src.drop i).take step :: pagesLoop src step (i + step)
  else []
termination_by src.length - i
decreasing_by
  simp_wf
  omega

/-- All pages fetched for one paginated list: the unconditional first call
(offset 0) followed by the loop's pages. -/
def allPages (src : List Nat) (step : Nat) : List (List Nat) :=
  src.take step :: pagesLoop src step step

/-- The value of a fully-loaded paginated list: `count` from the first call,
`items` accumulated by concatenating every fetched page. -/
structure PagedList where
  count : Nat
  items : List Nat
deriving DecidableEq, Repr

/-- Run the pagination loop of either template over one source list. -/
def apiPagedGet (src : List Nat) (step : Nat) : PagedList :=
  { count := src.length, items := (allPages src step).flatten }

/-- Result shape of the summary script (`return {user, groups, friends}`). -/
structure SummaryResult where
  user : List VKUser
  groups : PagedList
  friends : PagedList

/-- Server-side evaluation of `GET_MAIN_USER_INFO_REQUEST_CODE`. -/
def runSummaryScript (d : VKData) (group_step friend_step : Nat) :
    SummaryResult :=
  { user := d.users
    groups := apiPagedGet d.groupsList group_step
    friends := apiPagedGet d.friendsList friend_step }

/-- The `while(slice < count)` loop of the membership script: for each
consecutive slice `friends.items.slice(slice, slice + step)` it calls
`groups.isMember`, obtaining one boolean flag per friend, and adds the number
of `1` flags to `sum` (the `((member_flags+"").split(0)+"").split(1).length-1`
string hack counts the `1` characters, i.e. the true flags). -/
def isMemberSliceLoop (d : VKData) (gid : Nat) (friends : List Nat)
    (step slice : Nat) : Nat :=
  if _h : slice < friends.length ∧ 0 < step then
    (((friends.drop slice).take step).map (d.isMember gid)).count true
      + isMemberSliceLoop d gid friends step (slice + step)
  else 0
termination_by friends.length - slice
decreasing_by
  simp_wf
  omega

/-- Result shape of the membership script
(`return {user, special_group, friends_in_group, group}`). -/
structure MembershipResult where
  user : List VKUser
  special_group : Bool
  friends_in_group : Nat
  group : List GroupMeta

/-- Server-side evaluation of `CHECK_SPECIAL_GROUP_REQUEST_CODE`: load the
full friend list with `friend_load_step`-sized pages, count the friends that
are members of `gid` slice by slice, and compare against the threshold
(`special_group: (sum <= members_threshold)`). -/
def runMembershipScript (d : VKData) (gid : Nat) (members_threshold : Int)
    (friend_load_step friend_is_member_step : Nat) : MembershipResult :=
  let friends := apiPagedGet d.friendsList friend_load_step
  let sum := isMemberSliceLoop d gid friends.items friend_is_member_step 0
  { user := d.users
    special_group := decide ((sum : Int) ≤ members_threshold)
    friends_in_group := sum
    group := [d.groupMeta gid] }

/-!
## Transport: `do_execute_request`

One attempt is one `requests.post`.  Its observable outcome is either a raised
`requests.RequestException`, or an HTTP response whose body fails to parse as
JSON (`response.json()` raises), or a parsed body containing an `error`
envelope, or a parsed body free of `error` whose `response` field is the
returned value.  The loop `for i in range(request_repeat)` retries after
network exceptions and error envelopes; note that `response.json()` is invoked
in the loop condition *outside* the `try`, and again after the loop.
-/

/-- Observable outcome of one `requests.post` attempt. -/
inductive AttemptOutcome (V : Type) where
  | netExc (e : String)
  | badBody
  | errorEnvelope (error_code : Nat) (error_msg : String)
  | success (v : V)
deriving DecidableEq, Repr

/-- How `do_execute_request` terminates: return the `response` field, re-raise
the last network exception, raise `requests.RequestException` built from the
remote `error_code`/`error_msg`, let the JSON parse error escape, or (when the
loop body never ran and `response` is still `None`) fail with the undocumented
`AttributeError` on `None`. -/
inductive ExecOutcome (V : Type) where
  | ret (v : V)
  | raiseNet (e : String)
  | raiseVkError (error_code : Nat) (error_msg : String)
  | raiseParse
  | noneTypeError
deriving DecidableEq, Repr

/-- Does this attempt outcome make the loop retry (network exception caught by
the `except`, or a parsed body with an `error` envelope)? -/
def isRetryFail {V : Type} : AttemptOutcome V → Bool
  | .netExc _ => true
  | .errorEnvelope _ _ => true
  | .badBody => false
  | .success _ => false

/-- What the code after the loop does with the final `response`, and what the
in-loop condition check does on a break/parse-failure: a network exception is
re-raised, an error envelope becomes a `RequestException` carrying
`error_code`/`error_msg`, a successful body's `response` field is returned,
and a malformed body lets the parse error escape. -/
def surfaceLast {V : Type} : AttemptOutcome V → ExecOutcome V
  | .netExc e => .raiseNet e
  | .errorEnvelope c m => .raiseVkError c m
  | .success v => .ret v
  | .badBody => .raiseParse

/-- The `for i in range(request_repeat)` loop of `do_execute_request`.
`fuel` is the number of remaining iterations, `i` the index of the next
attempt; returns (number of attempts performed, terminal outcome).  When the
fuel runs out the post-loop code inspects the last `response` (folded into the
`fuel = 0` tests of the failing branches); when fuel is 0 from the start,
`response` is still `None` and `response.json()` fails with `AttributeError`. -/
def execLoop {V : Type} (att : Nat → AttemptOutcome V) :
    Nat → Nat → Nat × ExecOutcome V
  | i, 0 => (i, .noneTypeError)
  | i, fuel + 1 =>
    match att i with
    | .success v => (i + 1, .ret v)
    | .badBody => (i + 1, .raiseParse)
    | .netExc e =>
      if fuel = 0 then (i + 1, .raiseNet e) else execLoop att (i + 1) fuel
    | .errorEnvelope c m =>
      if fuel = 0 then (i + 1, .raiseVkError c m) else execLoop att (i + 1) fuel

/-- `do_execute_request` against an attempt oracle `att`: attempt `i` has
outcome `att i`.  `request_repeat` is a Python `int`; `range` of a
non-positive number is empty.  Returns (attempts performed, outcome). -/
def do_execute_request {V : Type} (request_repeat : Int)
    (att : Nat → AttemptOutcome V) : Nat × ExecOutcome V :=
  execLoop att 0 request_repeat.toNat

/-!
## Orchestrator: `find_unshared_groups`

The model records the returned/raised value, the exact sequence of floats
passed to the injected `progress` callback (as rationals), and the script
texts handed to `do_execute_request`, in order.
-/

/-- One record of the output list:
`dict(name=…, gid=…, members_count=…)` built from `group_info['group'][0]`. -/
structure UnsharedGroupRecord where
  name : String
  gid : Nat
  members_count : Nat
deriving DecidableEq, Repr

/-- The exceptions `find_unshared_groups` can raise itself (`ValueError` for a
missing or deactivated user, carrying the identifier and, when deactivated,
the reason). -/
inductive RunError where
  | noUser (user_id : String)
  | deactivated (user_id : String) (reason : String)
deriving DecidableEq, Repr

/-- Observable behaviour of one `find_unshared_groups` run. -/
structure RunResult where
  result : Except RunError (List UnsharedGroupRecord)
  progressCalls : List Rat
  scriptsSent : List String

/-- The `for group in user_info['groups']['items']` loop: per group, format
the membership script, execute it, advance `progress_status` by
`progress_step` and report it, and append a `{name, gid, members_count}`
record when `special_group` is true.  Returns (progress values reported,
records appended, scripts sent). -/
def groupLoop (d : VKData) (user_id : String) (members_threshold : Int)
    (friend_load_step friend_is_member_step : Nat) (progress_step : Rat) :
    Rat → List Nat → List Rat × List UnsharedGroupRecord × List String
  | _, [] => ([], [], [])
  | progress_status, g :: rest =>
    let group_info :=
      runMembershipScript d g members_threshold friend_load_step
        friend_is_member_step
    let status' := progress_status + progress_step
    let r := groupLoop d user_id members_threshold friend_load_step
      friend_is_member_step progress_step status' rest
    (status' :: r.1,
     (if group_info.special_group then
        [{ name := (group_info.group.headI).name
           gid := (group_info.group.headI).id
           members_count := (group_info.group.headI).members_count }]
      else []) ++ r.2.1,
     CHECK_SPECIAL_GROUP_REQUEST_CODE user_id (toString g)
       (toString members_threshold) (toString friend_load_step)
       (toString friend_is_member_step) :: r.2.2)

/-- `find_unshared_groups(user_id, members_threshold=…, raise_nouser=…,
group_step=…, friend_step=…, friend_load_step=…, friend_is_member_step=…)`
run against remote data `d`.  Follows the source control flow: `progress(0)`;
summary request; empty `user` → `progress(100)` and raise/report; key
`deactivated` present → `progress(100)` and raise/report; otherwise
`progress_status = (groups.count + 1) / 100`, `progress_step =
1 / progress_status`, `progress(progress_status)`, then the group loop,
then `progress(100)` and return the accumulated list. -/
def find_unshared_groups (d : VKData) (user_id : String)
    (members_threshold : Int) (raise_nouser : Bool)
    (group_step friend_step friend_load_step friend_is_member_step : Nat) :
    RunResult :=
  let summaryScript := GET_MAIN_USER_INFO_REQUEST_CODE user_id
    (toString group_step) (toString friend_step)
  let user_info := runSummaryScript d group_step friend_step
  if user_info.user.isEmpty then
    { result := if raise_nouser then .error (.noUser user_id) else .ok []
      progressCalls := [0, 100]
      scriptsSent := [summaryScript] }
  else if (user_info.user.headI.deactivated).isSome then
    { result :=
        if raise_nouser then
          .error (.deactivated user_id
            (user_info.user.headI.deactivated.getD ""))
        else .ok []
      progressCalls := [0, 100]
      scriptsSent := [summaryScript] }
  else
    let progress_status : Rat := ((user_info.groups.count : Rat) + 1) / 100
    let progress_step : Rat := 1 / progress_status
    let r := groupLoop d user_id members_threshold friend_load_step
      friend_is_member_step progress_step progress_status
      user_info.groups.items
    { result := .ok r.2.1
      progressCalls := 0 :: progress_status :: r.1 ++ [100]
      scriptsSent := summaryScript :: r.2.2 }

/-- The `k`-th value handed to the progress callback in the group-analysis
phase of a run over `N` groups: `progress_status` starts at `(N + 1) / 100`
and is advanced `k` times by `progress_step = 1 / progress_status`. -/
def progressValue (N k : Nat) : Rat :=
  ((N : Rat) + 1) / 100 + k * (1 / (((N : Rat) + 1) / 100))

/-!
## Concrete data used by witnesses and counterexamples
-/

/-- An existing, non-deactivated user with two groups. -/
def dataTwoGroups : VKData :=
  { users := [⟨7, "Ada", "L", none⟩]
    groupsList := [3, 4]
    friendsList := [1, 2, 5]
    isMember := fun g f => decide (g = 3 ∧ f % 2 = 1)
    groupMeta := fun g => ⟨g, "grp", "scr", 11⟩ }

/-- Friend list and oracle for the membership-count witness. -/
def dataFiveFriends : VKData :=
  { users := [⟨1, "U", "V", none⟩]
    groupsList := [9]
    friendsList := [10, 11, 12, 13, 14]
    isMember := fun _ f => decide (f % 2 = 0)
    groupMeta := fun g => ⟨g, "g", "s", 3⟩ }

/-- An existing, non-deactivated user with exactly 100 groups. -/
def dataHundredGroups : VKData :=
  { users := [⟨2, "B", "C", none⟩]
    groupsList := List.range 100
    friendsList := []
    isMember := fun _ _ => false
    groupMeta := fun g => ⟨g, "g", "s", 0⟩ }

/-- A user identifier that does not exist (`users.get` returns `[]`). -/
def dataNoUser : VKData :=
  { users := []
    groupsList := []
    friendsList := []
    isMember := fun _ _ => false
    groupMeta := fun _ => default }

/-- A deactivated user (`'deactivated' in user[0]`). -/
def dataDeactivated : VKData :=
  { users := [⟨5, "D", "E", some "banned"⟩]
    groupsList := []
    friendsList := []
    isMember := fun _ _ => false
    groupMeta := fun _ => default }

/-- An existing, non-deactivated user with zero groups. -/
def dataZeroGroups : VKData :=
  { users := [⟨8, "Z", "G", none⟩]
    groupsList := []
    friendsList := [1]
    isMember := fun _ _ => false
    groupMeta := fun g => ⟨g, "g", "s", 1⟩ }

/-- A user identifier containing a script-breaking `"` character. -/
def unsafeUserId : String := "a\"; var p = \""

/-- Attempt oracle that fails with a network exception on every attempt. -/
def attAllNet : Nat → AttemptOutcome Nat := fun _ => .netExc "timeout"

/-- Attempt oracle: error envelope on attempt 0, success from attempt 1 on. -/
def attEnvThenOk : Nat → AttemptOutcome Nat := fun i =>
  if i = 0 then .errorEnvelope 6 "Too many requests" else .success 7

/-- Attempt oracle: network failure, then malformed body, then success. -/
def attNetBadOk : Nat → AttemptOutcome Nat := fun i =>
  if i = 0 then .netExc "dns" else if i = 1 then .badBody else .success 3

/-- Attempt oracle: malformed body on attempt 0, success afterwards. -/
def attBadThenOk : Nat → AttemptOutcome Nat := fun i =>
  if i = 0 then .badBody else .success 42

/-- Attempt oracle: network exception on attempt 0, success afterwards. -/
def attNetThenOk : Nat → AttemptOutcome Nat := fun i =>
  if i = 0 then .netExc "reset" else .success 42

/-- Attempt oracle that always succeeds. -/
def attAlwaysOk : Nat → AttemptOutcome Nat := fun _ => .success 1

/-!
## Pagination loop lemmas
-/

/-- The loop's pages from offset `i` concatenate to the source list with its
first `i` items dropped. -/
theorem pagesLoop_flatten (src : List Nat) (step : Nat) (hstep : 1 ≤ step) :
    ∀ i, (pagesLoop src step i).flatten = src.drop i := by
  have key : ∀ n i, src.length - i ≤ n →
      (pagesLoop src step i).flatten = src.drop i := by
    intro n
    induction n with
    | zero =>
      intro i hi
      have hle : src.length ≤ i := by omega
      rw [pagesLoop]
      rw [dif_neg (by omega)]
      exact (List.drop_eq_nil_of_le hle).symm
    | succ n ih =>
      intro i hi
      by_cases hlt : i < src.length
      · rw [pagesLoop, dif_pos ⟨hlt, by omega⟩]
        rw [List.flatten_cons, ih (i + step) (by omega)]
        have hdd : src.drop (i + step) = (src.drop i).drop step := by
          rw [List.drop_drop]
        rw [hdd, List.take_append_drop]
      · rw [pagesLoop, dif_neg (by omega)]
        exact (List.drop_eq_nil_of_le (by omega)).symm
  exact fun i => key (src.length - i) i le_rfl

/-- Number of pages the loop fetches from offset `i`:
`⌈(src.length - i) / step⌉`. -/
theorem pagesLoop_length (src : List Nat) (step : Nat) (hstep : 1 ≤ step) :
    ∀ i, (pagesLoop src step i).length = (src.length - i + step - 1) / step := by
  have key : ∀ n i, src.length - i ≤ n →
      (pagesLoop src step i).length = (src.length - i + step - 1) / step := by
    intro n
    induction n with
    | zero =>
      intro i hi
      rw [pagesLoop, dif_neg (by omega)]
      have h0 : src.length - i = 0 := by omega
      rw [h0]
      exact (Nat.div_eq_of_lt (by omega)).symm
    | succ n ih =>
      intro i hi
      by_cases hlt : i < src.length
      · rw [pagesLoop, dif_pos ⟨hlt, by omega⟩]
        rw [List.length_cons, ih (i + step) (by omega)]
        set m := src.length - i with hm
        have hm1 : 1 ≤ m := by omega
        have hnum : m + step - 1 = (m - 1) + step := by omega
        rw [show src.length - (i + step) = m - step by omega, hnum,
          Nat.add_div_right _ (by omega)]
        rcases le_or_lt m step with hms | hms
        · have h1 : m - step = 0 := by omega
          rw [h1]
          have h2 : (m - 1) / step = 0 := Nat.div_eq_of_lt (by omega)
          have h3 : (0 + step - 1) / step = 0 := Nat.div_eq_of_lt (by omega)
          rw [h2, h3]
        · rw [show m - step + step - 1 = m - 1 by omega]
      · rw [pagesLoop, dif_neg (by omega)]
        have h0 : src.length - i = 0 := by omega
        rw [h0]
        exact (Nat.div_eq_of_lt (by omega)).symm
  exact fun i => key (src.length - i) i le_rfl

/-- The concatenation of all fetched pages is exactly the source list: no
item duplicated, none skipped, order preserved. -/
theorem allPages_flatten (src : List Nat) (step : Nat) (hstep : 1 ≤ step) :
    (allPages src step).flatten = src := by
  rw [allPages, List.flatten_cons, pagesLoop_flatten src step hstep step,
    List.take_append_drop]

/-- Total number of fetched pages: the unconditional first call plus the
loop's pages, i.e. `max 1 ⌈src.length / step⌉`. -/
theorem allPages_length (src : List Nat) (step : Nat) (hstep : 1 ≤ step) :
    (allPages src step).length = max 1 ((src.length + step - 1) / step) := by
  rw [allPages, List.length_cons, pagesLoop_length src step hstep step]
  set L := src.length with hL
  rcases le_or_lt L step with hls | hls
  · have h1 : L - step = 0 := by omega
    rw [h1]
    have h2 : (0 + step - 1) / step = 0 := Nat.div_eq_of_lt (by omega)
    rw [h2]
    have h3 : (L + step - 1) / step < 2 := Nat.div_lt_of_lt_mul (by omega)
    have h4 : 0 ≤ (L + step - 1) / step := Nat.zero_le _
    omega
  · rw [show L - step + step - 1 = L - 1 by omega]
    have h1 : L + step - 1 = (L - 1) + step := by omega
    rw [h1]
    rw [Nat.add_div_right (L - 1) (show 0 < step by omega)]
    have hq : 1 ≤ (L - 1) / step + 1 := Nat.le_add_left 1 _
    rw [max_eq_right hq]

/-- With a positive page size, the fully-loaded paginated list's items are
the entire source list. -/
theorem apiPagedGet_items (src : List Nat) (step : Nat) (hstep : 1 ≤ step) :
    (apiPagedGet src step).items = src :=
  allPages_flatten src step hstep

/-- The paginated list always reports the source's total count. -/
theorem apiPagedGet_count (src : List Nat) (step : Nat) :
    (apiPagedGet src step).count = src.length := rfl

/-!
## Membership slice-loop lemmas
-/

/-- From offset `slice`, the slice loop counts exactly the members of `gid`
among the remaining friends, whatever the slice size. -/
theorem isMemberSliceLoop_eq_countP (d : VKData) (gid : Nat) (l : List Nat)
    (step : Nat) (hstep : 1 ≤ step) :
    ∀ slice, isMemberSliceLoop d gid l step slice
      = (l.drop slice).countP (d.isMember gid) := by
  have key : ∀ n slice, l.length - slice ≤ n →
      isMemberSliceLoop d gid l step slice
        = (l.drop slice).countP (d.isMember gid) := by
    intro n
    induction n with
    | zero =>
      intro slice hs
      rw [isMemberSliceLoop, dif_neg (by omega),
        List.drop_eq_nil_of_le (by omega), List.countP_nil]
    | succ n ih =>
      intro slice hs
      by_cases hlt : slice < l.length
      · rw [isMemberSliceLoop, dif_pos ⟨hlt, by omega⟩, ih (slice + step) (by omega)]
        have hcount : ∀ xs : List Nat,
            (xs.map (d.isMember gid)).count true = xs.countP (d.isMember gid) := by
          intro xs
          rw [List.count, List.countP_map]
          congr 1
          funext x
          simp [Function.comp]
        rw [hcount]
        have hdd : l.drop (slice + step) = (l.drop slice).drop step := by
          rw [List.drop_drop]
        rw [hdd]
        conv_rhs => rw [← List.take_append_drop step (l.drop slice)]
        rw [List.countP_append]
      · rw [isMemberSliceLoop, dif_neg (by omega),
          List.drop_eq_nil_of_le (by omega), List.countP_nil]
  exact fun slice => key (l.length - slice) slice le_rfl

/-!
## Transport loop lemmas
-/

/-- If every remaining attempt fails in a retryable way (network exception or
error envelope), the loop performs them all and the post-loop code surfaces
the last attempt's failure. -/
theorem execLoop_allFail {V : Type} (att : Nat → AttemptOutcome V) :
    ∀ fuel i, 1 ≤ fuel → (∀ j, j < fuel → isRetryFail (att (i + j)) = true) →
      execLoop att i fuel = (i + fuel, surfaceLast (att (i + fuel - 1))) := by
  intro fuel
  induction fuel with
  | zero => omega
  | succ f ih =>
    intro i _ hfail
    have h0 : isRetryFail (att i) = true := by
      have h := hfail 0 (by omega)
      simpa using h
    cases hatt : att i with
    | success v => rw [hatt] at h0; simp [isRetryFail] at h0
    | badBody => rw [hatt] at h0; simp [isRetryFail] at h0
    | netExc e =>
      rcases Nat.eq_zero_or_pos f with hf | hf
      · subst hf
        simp only [execLoop, hatt, if_pos rfl]
        rw [show i + 1 - 1 = i by omega, hatt]
        rfl
      · have hrec := ih (i + 1) (by omega) (fun j hj => by
          have h := hfail (j + 1) (by omega)
          rwa [show i + (j + 1) = i + 1 + j by omega] at h)
        rw [show i + 1 + f = i + (f + 1) by omega] at hrec
        simp only [execLoop, hatt, if_neg (by omega : ¬ f = 0)]
        exact hrec
    | errorEnvelope c m =>
      rcases Nat.eq_zero_or_pos f with hf | hf
      · subst hf
        simp only [execLoop, hatt, if_pos rfl]
        rw [show i + 1 - 1 = i by omega, hatt]
        rfl
      · have hrec := ih (i + 1) (by omega) (fun j hj => by
          have h := hfail (j + 1) (by omega)
          rwa [show i + (j + 1) = i + 1 + j by omega] at h)
        rw [show i + 1 + f = i + (f + 1) by omega] at hrec
        simp only [execLoop, hatt, if_neg (by omega : ¬ f = 0)]
        exact hrec

/-- If attempts before the `k`-th fail in a retryable way and the `k`-th
attempt does not (it succeeds, or its body is malformed), the loop stops at
exactly `k` attempts with that attempt's terminal outcome. -/
theorem execLoop_stops {V : Type} (att : Nat → AttemptOutcome V) :
    ∀ fuel i k, 1 ≤ k → k ≤ fuel →
      (∀ j, j < k - 1 → isRetryFail (att (i + j)) = true) →
      isRetryFail (att (i + k - 1)) = false →
      execLoop att i fuel = (i + k, surfaceLast (att (i + k - 1))) := by
  intro fuel
  induction fuel with
  | zero => omega
  | succ f ih =>
    intro i k hk1 hkf hfail hstop
    rcases Nat.eq_or_lt_of_le hk1 with hk | hk
    · have hki : i + k - 1 = i := by omega
      rw [hki] at hstop ⊢
      cases hatt : att i with
      | success v =>
        simp only [execLoop, hatt]
        rw [← hk]
        rfl
      | badBody =>
        simp only [execLoop, hatt]
        rw [← hk]
        rfl
      | netExc e => rw [hatt] at hstop; simp [isRetryFail] at hstop
      | errorEnvelope c m => rw [hatt] at hstop; simp [isRetryFail] at hstop
    · have h0 : isRetryFail (att i) = true := by
        have h := hfail 0 (by omega)
        simpa using h
      have hf1 : 1 ≤ f := by omega
      have hrec := ih (i + 1) (k - 1) (by omega) (by omega)
        (fun j hj => by
          have h := hfail (j + 1) (by omega)
          rwa [show i + (j + 1) = i + 1 + j by omega] at h)
        (by rwa [show i + 1 + (k - 1) - 1 = i + k - 1 by omega])
      have hik : i + 1 + (k - 1) = i + k := by omega
      rw [hik] at hrec
      cases hatt : att i with
      | success v => rw [hatt] at h0; simp [isRetryFail] at h0
      | badBody => rw [hatt] at h0; simp [isRetryFail] at h0
      | netExc e =>
        simp only [execLoop, hatt, if_neg (by omega : ¬ f = 0)]
        exact hrec
      | errorEnvelope c m =>
        simp only [execLoop, hatt, if_neg (by omega : ¬ f = 0)]
        exact hrec

/-- Once the loop body runs at least once, the undocumented
`AttributeError`-on-`None` outcome is impossible. -/
theorem execLoop_ne_noneTypeError {V : Type} (att : Nat → AttemptOutcome V) :
    ∀ fuel i, 1 ≤ fuel → (execLoop att i fuel).2 ≠ ExecOutcome.noneTypeError := by
  intro fuel
  induction fuel with
  | zero => omega
  | succ f ih =>
    intro i _
    cases hatt : att i with
    | success v => simp [execLoop, hatt]
    | badBody => simp [execLoop, hatt]
    | netExc e =>
      rcases Nat.eq_zero_or_pos f with hf | hf
      · subst hf
        simp [execLoop, hatt]
      · simp only [execLoop, hatt, if_neg (by omega : ¬ f = 0)]
        exact ih (i + 1) (by omega)
    | errorEnvelope c m =>
      rcases Nat.eq_zero_or_pos f with hf | hf
      · subst hf
        simp [execLoop, hatt]
      · simp only [execLoop, hatt, if_neg (by omega : ¬ f = 0)]
        exact ih (i + 1) (by omega)

/-!
## Orchestrator lemmas
-/

/-- The membership script always returns the checked group's metadata as a
one-element list. -/
theorem runMembershipScript_group (d : VKData) (gid : Nat) (th : Int)
    (fls fims : Nat) :
    (runMembershipScript d gid th fls fims).group = [d.groupMeta gid] := rfl

/-- Closed form of the per-group loop: the reported progress values, the
filtered record list, and the membership scripts sent, one per group in
order. -/
theorem groupLoop_eq (d : VKData) (uid : String) (th : Int) (fls fims : Nat)
    (pstep : Rat) : ∀ (gs : List Nat) (status : Rat),
    groupLoop d uid th fls fims pstep status gs =
      ((List.range gs.length).map
         (fun k : Nat => status + ((k : Rat) + 1) * pstep),
       (gs.filter
          (fun g => (runMembershipScript d g th fls fims).special_group)).map
         (fun g => { name := (d.groupMeta g).name
                     gid := (d.groupMeta g).id
                     members_count := (d.groupMeta g).members_count }),
       gs.map (fun g => CHECK_SPECIAL_GROUP_REQUEST_CODE uid (toString g)
         (toString th) (toString fls) (toString fims))) := by
  intro gs
  induction gs with
  | nil => intro status; rfl
  | cons g rest ih =>
    intro status
    simp only [groupLoop]
    rw [ih (status + pstep)]
    dsimp only
    simp only [Prod.mk.injEq]
    refine ⟨?_, ?_, ?_⟩
    · rw [List.length_cons, List.range_succ_eq_map, List.map_cons,
        List.map_map]
      congr 1
      · push_cast
        ring
      · apply List.map_congr_left
        intro k _
        simp only [Function.comp]
        push_cast
        ring
    · rw [List.filter_cons]
      by_cases hsg : (runMembershipScript d g th fls fims).special_group
      · rw [if_pos hsg, if_pos hsg, List.map_cons, List.singleton_append,
          runMembershipScript_group, List.headI_cons]
      · rw [if_neg hsg, if_neg hsg, List.nil_append]
    · rw [List.map_cons]

/-- Every group-analysis progress value is nonnegative. -/
theorem progressValue_nonneg (N k : Nat) : 0 ≤ progressValue N k := by
  unfold progressValue
  positivity

/-- Progress values grow with the number of processed groups. -/
theorem progressValue_mono (N : Nat) {k m : Nat} (h : k ≤ m) :
    progressValue N k ≤ progressValue N m := by
  unfold progressValue
  have hstep : (0 : Rat) ≤ 1 / (((N : Rat) + 1) / 100) := by positivity
  have hkm : ((k : Rat)) ≤ (m : Rat) := by exact_mod_cast h
  have := mul_le_mul_of_nonneg_right hkm hstep
  linarith

/-- For a run over at most 99 groups, every group-analysis progress value
stays at or below 100.  (`progressValue N N ≤ 100` is equivalent to
`(N + 1)² ≤ 100²`.) -/
theorem progressValue_le_100 (N k : Nat) (hN : N ≤ 99) (hk : k ≤ N) :
    progressValue N k ≤ 100 := by
  refine (progressValue_mono N hk).trans ?_
  unfold progressValue
  have ht0 : (0 : Rat) < (N : Rat) + 1 := by positivity
  have ht100 : ((N : Rat) + 1) ≤ 100 := by
    have : (N : Rat) ≤ 99 := by exact_mod_cast hN
    linarith
  rw [one_div_div, ← mul_div_assoc,
    div_add_div _ _ (by norm_num : (100 : Rat) ≠ 0) ht0.ne',
    div_le_iff₀ (by positivity : (0 : Rat) < 100 * ((N : Rat) + 1))]
  nlinarith [mul_le_mul ht100 ht100 ht0.le (by norm_num : (0 : Rat) ≤ (100 : Rat))]

/-- The summary script's `groups` field is the paginated group list. -/
theorem runSummaryScript_groups (d : VKData) (gs fs : Nat) :
    (runSummaryScript d gs fs).groups = apiPagedGet d.groupsList gs := rfl

/-- Full characterization of a run over an existing, non-deactivated user:
the result is the filtered record list, the progress-callback sequence is
`0, (N+1)/100, (N+1)/100 + 1·step, …, (N+1)/100 + N·step, 100`
(`step = 1/((N+1)/100)`), and the scripts sent are the summary script
followed by one membership script per group, in order. -/
theorem find_unshared_groups_ok (d : VKData) (uid : String) (th : Int)
    (rn : Bool) (gs fs fls fims : Nat)
    (hu : d.users ≠ []) (hd : d.users.headI.deactivated = none)
    (hgs : 1 ≤ gs) :
    find_unshared_groups d uid th rn gs fs fls fims =
      { result := Except.ok ((d.groupsList.filter
            (fun g => (runMembershipScript d g th fls fims).special_group)).map
            (fun g => { name := (d.groupMeta g).name
                        gid := (d.groupMeta g).id
                        members_count := (d.groupMeta g).members_count }))
        progressCalls := 0 :: (List.range (d.groupsList.length + 1)).map
            (progressValue d.groupsList.length) ++ [100]
        scriptsSent := GET_MAIN_USER_INFO_REQUEST_CODE uid (toString gs)
            (toString fs) :: d.groupsList.map (fun g =>
              CHECK_SPECIAL_GROUP_REQUEST_CODE uid (toString g) (toString th)
                (toString fls) (toString fims)) } := by
  rcases List.exists_cons_of_ne_nil hu with ⟨u, us, husers⟩
  have hd' : u.deactivated = none := by
    rw [husers] at hd
    simpa using hd
  have huser : (runSummaryScript d gs fs).user = u :: us := by
    rw [runSummaryScript]
    exact husers
  have hcount : (runSummaryScript d gs fs).groups.count = d.groupsList.length :=
    rfl
  have hitems : (runSummaryScript d gs fs).groups.items = d.groupsList := by
    rw [runSummaryScript_groups]
    exact apiPagedGet_items d.groupsList gs hgs
  simp only [find_unshared_groups, huser, List.isEmpty_cons, List.headI_cons,
    hd', Option.isSome_none, Bool.false_eq_true, if_false, hcount, hitems,
    groupLoop_eq]
  simp only [RunResult.mk.injEq]
  refine ⟨trivial, ?_, trivial⟩
  congr 1
  rw [List.range_succ_eq_map, List.map_cons, List.map_map]
  simp only [List.cons.injEq]
  refine ⟨trivial, ?_, ?_⟩
  · unfold progressValue
    push_cast
    ring
  · apply List.map_congr_left
    intro k _
    simp only [Function.comp]
    unfold progressValue
    push_cast
    ring

/-!
## Claims
-/

/-- C1: for every run reaching group analysis, a group appears in the final
result list iff its computed `friends_in_group` count is at most the run's
threshold: the membership script sets `special_group` to
`sum <= members_threshold`, and `find_unshared_groups` appends a
`{name, gid, members_count}` record exactly when that flag is true. -/
theorem C1_unshared_iff_threshold (d : VKData) (uid : String) (th : Int)
    (rn : Bool) (gs fs fls fims : Nat)
    (hu : d.users ≠ []) (hd : d.users.headI.deactivated = none)
    (hgs : 1 ≤ gs) :
    (find_unshared_groups d uid th rn gs fs fls fims).result =
      Except.ok ((d.groupsList.filter
        (fun g => (runMembershipScript d g th fls fims).special_group)).map
        (fun g => { name := (d.groupMeta g).name
                    gid := (d.groupMeta g).id
                    members_count := (d.groupMeta g).members_count }))
    ∧ ∀ g : Nat, ((runMembershipScript d g th fls fims).special_group = true
        ↔ ((runMembershipScript d g th fls fims).friends_in_group : Int) ≤ th) := by
  constructor
  · rw [find_unshared_groups_ok d uid th rn gs fs fls fims hu hd hgs]
  · intro g
    simp [runMembershipScript]

/-- Witness for C1: the hypotheses hold at concrete data and the conclusion
follows by the theorem. -/
theorem C1_witness :
    dataTwoGroups.users ≠ []
    ∧ dataTwoGroups.users.headI.deactivated = none
    ∧ ((find_unshared_groups dataTwoGroups "u" 1 true 3 2 4 2).result =
        Except.ok ((dataTwoGroups.groupsList.filter
          (fun g => (runMembershipScript dataTwoGroups g 1 4 2).special_group)).map
          (fun g => { name := (dataTwoGroups.groupMeta g).name
                      gid := (dataTwoGroups.groupMeta g).id
                      members_count := (dataTwoGroups.groupMeta g).members_count }))
      ∧ ∀ g : Nat, ((runMembershipScript dataTwoGroups g 1 4 2).special_group = true
          ↔ ((runMembershipScript dataTwoGroups g 1 4 2).friends_in_group : Int) ≤ 1)) :=
  ⟨by decide, rfl,
    C1_unshared_iff_threshold dataTwoGroups "u" 1 true 3 2 4 2 (by decide) rfl
      (by norm_num)⟩

/-- C2 as stated is false at `total = 0`: the generated loop issues the
unconditional first page request, so it fetches 1 page, not
`⌈0 / pageSize⌉ = 0` pages. -/
theorem C2_counterexample :
    (allPages ([] : List Nat) 1).length ≠ (([] : List Nat).length + 1 - 1) / 1 := by
  rw [allPages_length [] 1 le_rfl]
  decide

/-- C2 (amended): for every `pageSize ≥ 1`, the pagination loop shared by both
batch-script templates fetches exactly `max 1 ⌈total / pageSize⌉` pages (the
first page is fetched unconditionally, so one page even when `total = 0`; for
`total ≥ 1` this equals `⌈total / pageSize⌉`), and the concatenation of all
fetched pages is exactly the source list — length `total`, no duplicated or
skipped boundary item, including a final partial page. -/
theorem C2_pagination (src : List Nat) (step : Nat) (h : 1 ≤ step) :
    (allPages src step).length = max 1 ((src.length + step - 1) / step)
    ∧ (allPages src step).flatten = src
    ∧ ((allPages src step).flatten).length = src.length :=
  ⟨allPages_length src step h, allPages_flatten src step h,
    by rw [allPages_flatten src step h]⟩

/-- Witness for C2 at a source of 3 items and page size 2 (final partial
page). -/
theorem C2_witness :
    (1 : Nat) ≤ 2
    ∧ ((allPages [10, 11, 12] 2).length
          = max 1 ((([10, 11, 12] : List Nat).length + 2 - 1) / 2)
      ∧ (allPages [10, 11, 12] 2).flatten = [10, 11, 12]
      ∧ ((allPages [10, 11, 12] 2).flatten).length
          = ([10, 11, 12] : List Nat).length) :=
  ⟨by norm_num, C2_pagination [10, 11, 12] 2 (by norm_num)⟩

/-- C3: with `request_repeat ≥ 1`, if every attempt fails retryably (network
exception or error envelope) then exactly `request_repeat` attempts occur and
the last attempt's failure is surfaced (the network exception is re-raised,
or a request error carrying the remote `error_code`/`error_msg` is raised);
if attempts before the `k`-th fail retryably and attempt `k ≤ request_repeat`
succeeds with an error-free response, exactly `k` attempts occur and the
`response` field is returned. -/
theorem C3_retry_bound {V : Type} (request_repeat : Int)
    (att : Nat → AttemptOutcome V) (h1 : 1 ≤ request_repeat) :
    ((∀ i, i < request_repeat.toNat → isRetryFail (att i) = true) →
        do_execute_request request_repeat att
          = (request_repeat.toNat, surfaceLast (att (request_repeat.toNat - 1))))
    ∧ (∀ (k : Nat) (v : V), 1 ≤ k → (k : Int) ≤ request_repeat →
        (∀ i, i < k - 1 → isRetryFail (att i) = true) →
        att (k - 1) = AttemptOutcome.success v →
        do_execute_request request_repeat att = (k, ExecOutcome.ret v)) := by
  constructor
  · intro hfail
    have hf : 1 ≤ request_repeat.toNat := by omega
    have h := execLoop_allFail att request_repeat.toNat 0 hf
      (fun j hj => by simpa using hfail j hj)
    simpa [do_execute_request] using h
  · intro k v hk1 hkr hfail hsucc
    have hkn : k ≤ request_repeat.toNat := by omega
    have hstop : isRetryFail (att (0 + k - 1)) = false := by
      simp only [Nat.zero_add]
      rw [hsucc]
      rfl
    have h := execLoop_stops att request_repeat.toNat 0 k hk1 hkn
      (fun j hj => by simpa using hfail j hj) hstop
    unfold do_execute_request
    rw [h]
    simp only [Nat.zero_add]
    rw [hsucc]
    rfl

/-- Witness for C3: an always-failing transport stops after exactly 2 of 2
attempts surfacing the network error; a transport succeeding on attempt 2 of
3 stops after exactly 2 attempts returning the `response` value. -/
theorem C3_witness :
    do_execute_request 2 attAllNet = (2, ExecOutcome.raiseNet "timeout")
    ∧ do_execute_request 3 attEnvThenOk = (2, ExecOutcome.ret 7) := by
  constructor
  · exact (C3_retry_bound 2 attAllNet (by norm_num)).1 (fun i hi => rfl)
  · exact (C3_retry_bound 3 attEnvThenOk (by norm_num)).2 2 7 (by norm_num)
      (by norm_num)
      (fun i hi => by
        have h0 : i = 0 := by omega
        subst h0
        rfl)
      rfl

/-- C4: the membership-check computation reports `friends_in_group` equal to
the exact number of friends the oracle flags as members, for every friend
list, every oracle, and every load/slice sizes ≥ 1 — in particular invariant
under how the list is partitioned into consecutive `friend_is_member_step`
slices. -/
theorem C4_membership_count (d : VKData) (gid : Nat) (th : Int)
    (fls fims : Nat) (h1 : 1 ≤ fls) (h2 : 1 ≤ fims) :
    (runMembershipScript d gid th fls fims).friends_in_group
      = d.friendsList.countP (d.isMember gid) := by
  show isMemberSliceLoop d gid (apiPagedGet d.friendsList fls).items fims 0
      = d.friendsList.countP (d.isMember gid)
  rw [apiPagedGet_items d.friendsList fls h1,
    isMemberSliceLoop_eq_countP d gid d.friendsList fims h2 0, List.drop_zero]

/-- Witness for C4 at a 5-friend list sliced in pairs. -/
theorem C4_witness :
    (1 : Nat) ≤ 2 ∧ (1 : Nat) ≤ 2
    ∧ (runMembershipScript dataFiveFriends 9 0 2 2).friends_in_group
        = dataFiveFriends.friendsList.countP (dataFiveFriends.isMember 9) :=
  ⟨by norm_num, by norm_num,
    C4_membership_count dataFiveFriends 9 0 2 2 (by norm_num) (by norm_num)⟩

/-- C5 as stated is false: on a successful run over 100 groups a value
strictly greater than 100 is passed to the progress callback
(`progress_status = (N+1)/100` is not a percentage, and after the 100 steps
of `progress_step = 1/progress_status` the running value overshoots 100). -/
theorem C5_counterexample :
    ∃ x ∈ (find_unshared_groups dataHundredGroups "u" 0 true
        1000 5000 5000 500).progressCalls, (100 : Rat) < x := by
  rw [find_unshared_groups_ok dataHundredGroups "u" 0 true 1000 5000 5000 500
    (by decide) rfl (by norm_num)]
  have hlen : dataHundredGroups.groupsList.length = 100 := by
    simp [dataHundredGroups]
  rw [hlen]
  refine ⟨progressValue 100 100, ?_, ?_⟩
  · exact List.mem_cons_of_mem _ (List.mem_append_left _
      (List.mem_map_of_mem _ (List.mem_range.mpr (by norm_num))))
  · unfold progressValue
    push_cast
    norm_num

/-- C5 (amended): on a successful run over `N` groups the injected progress
callback is invoked exactly `N + 3` times (hence at least `N + 2`), the first
value is 0 and the last is exactly 100; and whenever `N ≤ 99` every value
lies in `[0, 100]` and the sequence is non-decreasing (for `N ≥ 100` the
running value exceeds 100 before the final `progress(100)`). -/
theorem C5_progress_profile (d : VKData) (uid : String) (th : Int) (rn : Bool)
    (gs fs fls fims : Nat)
    (hu : d.users ≠ []) (hd : d.users.headI.deactivated = none)
    (hgs : 1 ≤ gs) :
    d.groupsList.length + 2 ≤
        (find_unshared_groups d uid th rn gs fs fls fims).progressCalls.length
    ∧ (find_unshared_groups d uid th rn gs fs fls fims).progressCalls.length
        = d.groupsList.length + 3
    ∧ (find_unshared_groups d uid th rn gs fs fls fims).progressCalls.head?
        = some 0
    ∧ (find_unshared_groups d uid th rn gs fs fls fims).progressCalls.getLast?
        = some 100
    ∧ (d.groupsList.length ≤ 99 →
        (∀ x ∈ (find_unshared_groups d uid th rn gs fs fls fims).progressCalls,
            0 ≤ x ∧ x ≤ 100)
        ∧ (find_unshared_groups d uid th rn gs fs fls
            fims).progressCalls.Sorted (· ≤ ·)) := by
  rw [find_unshared_groups_ok d uid th rn gs fs fls fims hu hd hgs]
  dsimp only
  set N := d.groupsList.length with hN
  have hlen : ((0 : Rat) :: (List.range (N + 1)).map (progressValue N)
      ++ [100]).length = N + 3 := by
    simp
  refine ⟨by rw [hlen]; omega, hlen, rfl, ?_, ?_⟩
  · exact List.getLast?_concat _
  · intro hN99
    constructor
    · intro x hx
      rcases List.mem_cons.mp hx with h0 | hx'
      · subst h0
        norm_num
      · rcases List.mem_append.mp hx' with hmap | h100
        · rcases List.mem_map.mp hmap with ⟨k, hk, rfl⟩
          have hkN : k ≤ N := by
            have := List.mem_range.mp hk
            omega
          exact ⟨progressValue_nonneg N k, progressValue_le_100 N k hN99 hkN⟩
        · rcases List.mem_singleton.mp h100 with rfl
          norm_num
    · show List.Pairwise (fun x1 x2 => x1 ≤ x2)
        ((0 :: List.map (progressValue N) (List.range (N + 1))) ++ [100])
      rw [List.pairwise_append]
      refine ⟨?_, List.pairwise_singleton _ _, ?_⟩
      · rw [List.pairwise_cons]
        constructor
        · intro b hb
          rcases List.mem_map.mp hb with ⟨k, hk, rfl⟩
          exact progressValue_nonneg N k
        · exact List.Pairwise.map _ (fun a b hab => progressValue_mono N hab.le)
            (List.pairwise_lt_range (N + 1))
      · intro x hx y hy
        rcases List.mem_singleton.mp hy with rfl
        rcases List.mem_cons.mp hx with h0 | hmap
        · subst h0
          norm_num
        · rcases List.mem_map.mp hmap with ⟨k, hk, rfl⟩
          have hkN : k ≤ N := by
            have := List.mem_range.mp hk
            omega
          exact progressValue_le_100 N k hN99 hkN

/-- Witness for C5 at a 2-group run. -/
theorem C5_witness :
    dataTwoGroups.users ≠ []
    ∧ (dataTwoGroups.groupsList.length + 2 ≤
        (find_unshared_groups dataTwoGroups "u" 0 true 1 1 1 1).progressCalls.length
      ∧ (find_unshared_groups dataTwoGroups "u" 0 true 1 1 1 1).progressCalls.length
          = dataTwoGroups.groupsList.length + 3
      ∧ (find_unshared_groups dataTwoGroups "u" 0 true 1 1 1 1).progressCalls.head?
          = some 0
      ∧ (find_unshared_groups dataTwoGroups "u" 0 true 1 1 1 1).progressCalls.getLast?
          = some 100
      ∧ (dataTwoGroups.groupsList.length ≤ 99 →
          (∀ x ∈ (find_unshared_groups dataTwoGroups "u" 0 true 1 1 1 1).progressCalls,
              0 ≤ x ∧ x ≤ 100)
          ∧ (find_unshared_groups dataTwoGroups "u" 0 true 1 1
              1 1).progressCalls.Sorted (· ≤ ·))) :=
  ⟨by decide,
    C5_progress_profile dataTwoGroups "u" 0 true 1 1 1 1 (by decide) rfl
      (by norm_num)⟩

/-- C6: a missing or deactivated user short-circuits the run: progress is
exactly `[0, 100]`, only the summary script is sent (no group is analyzed),
the result list is empty, and `raise_nouser` selects between raising a
`ValueError` identifying the user and returning the empty list. -/
theorem C6_missing_user (d : VKData) (uid : String) (th : Int)
    (gs fs fls fims : Nat) :
    (d.users = [] →
      ∀ rn : Bool,
        (find_unshared_groups d uid th rn gs fs fls fims).progressCalls
            = [0, 100]
        ∧ (find_unshared_groups d uid th rn gs fs fls fims).scriptsSent
            = [GET_MAIN_USER_INFO_REQUEST_CODE uid (toString gs) (toString fs)]
        ∧ (find_unshared_groups d uid th true gs fs fls fims).result
            = Except.error (RunError.noUser uid)
        ∧ (find_unshared_groups d uid th false gs fs fls fims).result
            = Except.ok [])
    ∧ (∀ r : String, d.users ≠ [] → d.users.headI.deactivated = some r →
      ∀ rn : Bool,
        (find_unshared_groups d uid th rn gs fs fls fims).progressCalls
            = [0, 100]
        ∧ (find_unshared_groups d uid th rn gs fs fls fims).scriptsSent
            = [GET_MAIN_USER_INFO_REQUEST_CODE uid (toString gs) (toString fs)]
        ∧ (find_unshared_groups d uid th true gs fs fls fims).result
            = Except.error (RunError.deactivated uid r)
        ∧ (find_unshared_groups d uid th false gs fs fls fims).result
            = Except.ok []) := by
  constructor
  · intro hnil rn
    refine ⟨?_, ?_, ?_, ?_⟩ <;>
      simp [find_unshared_groups, runSummaryScript, hnil]
  · intro r hne hdeact rn
    rcases List.exists_cons_of_ne_nil hne with ⟨u, us, husers⟩
    rw [husers] at hdeact
    simp only [List.headI_cons] at hdeact
    refine ⟨?_, ?_, ?_, ?_⟩ <;>
      simp [find_unshared_groups, runSummaryScript, husers, hdeact]

/-- Witness for C6: the missing-user and deactivated-user cases at concrete
data, in both `raise_nouser` modes. -/
theorem C6_witness :
    dataNoUser.users = []
    ∧ (find_unshared_groups dataNoUser "nouser" 0 true 1 1 1 1).result
        = Except.error (RunError.noUser "nouser")
    ∧ dataDeactivated.users ≠ []
    ∧ dataDeactivated.users.headI.deactivated = some "banned"
    ∧ (find_unshared_groups dataDeactivated "du" 0 true 1 1 1 1).result
        = Except.error (RunError.deactivated "du" "banned")
    ∧ (find_unshared_groups dataDeactivated "du" 0 false 1 1 1 1).result
        = Except.ok [] := by
  refine ⟨rfl, ?_, by decide, rfl, ?_, ?_⟩
  · exact ((C6_missing_user dataNoUser "nouser" 0 1 1 1 1).1 rfl true).2.2.1
  · exact ((C6_missing_user dataDeactivated "du" 0 1 1 1 1).2 "banned"
      (by decide) rfl true).2.2.1
  · exact ((C6_missing_user dataDeactivated "du" 0 1 1 1 1).2 "banned"
      (by decide) rfl false).2.2.2

/-- C7 as stated is false: a malformed response body is *not* retried —
`response.json()` is called outside the `try`, so the parse failure escapes
`do_execute_request` on the very attempt where it occurs (1 attempt despite
`request_repeat = 10`), whereas a network exception in the same position is
retried and the next attempt's value is returned. -/
theorem C7_counterexample :
    do_execute_request 10 attBadThenOk = (1, ExecOutcome.raiseParse)
    ∧ do_execute_request 10 attNetThenOk = (2, ExecOutcome.ret 42) := by
  constructor <;> decide

/-- C7 (amended): if the attempts before the `k`-th fail retryably and the
`k`-th attempt (`k ≤ request_repeat`) returns a body that cannot be parsed,
`do_execute_request` performs exactly `k` attempts and the parse failure
escapes the retry loop instead of being retried. -/
theorem C7_malformed_escapes {V : Type} (request_repeat : Int)
    (att : Nat → AttemptOutcome V) (k : Nat) (hk1 : 1 ≤ k)
    (hkr : (k : Int) ≤ request_repeat)
    (hfail : ∀ i, i < k - 1 → isRetryFail (att i) = true)
    (hbad : att (k - 1) = AttemptOutcome.badBody) :
    do_execute_request request_repeat att = (k, ExecOutcome.raiseParse) := by
  have hkn : k ≤ request_repeat.toNat := by omega
  have hstop : isRetryFail (att (0 + k - 1)) = false := by
    simp only [Nat.zero_add]
    rw [hbad]
    rfl
  have h := execLoop_stops att request_repeat.toNat 0 k hk1 hkn
    (fun j hj => by simpa using hfail j hj) hstop
  unfold do_execute_request
  rw [h]
  simp only [Nat.zero_add]
  rw [hbad]
  rfl

/-- Witness for C7 (amended): network failure on attempt 1, malformed body on
attempt 2 of 5 — the run stops after exactly 2 attempts with the parse
failure. -/
theorem C7_malformed_witness :
    do_execute_request 5 attNetBadOk = (2, ExecOutcome.raiseParse) :=
  C7_malformed_escapes 5 attNetBadOk 2 (by norm_num) (by norm_num)
    (fun i hi => by
      have h0 : i = 0 := by omega
      subst h0
      rfl)
    rfl

/-- C8 as stated is false: for an identifier containing a script-breaking
`"` character, `find_unshared_groups` raises no local error — it interpolates
the identifier verbatim into the summary script, hands that script to the
transport (a network call is issued), and the run completes normally. -/
theorem C8_counterexample :
    ('"' ∈ unsafeUserId.data)
    ∧ (find_unshared_groups dataNoUser unsafeUserId 0 false 1 1 1 1).scriptsSent
        = [GET_MAIN_USER_INFO_REQUEST_CODE unsafeUserId "1" "1"]
    ∧ (find_unshared_groups dataNoUser unsafeUserId 0 false 1 1 1 1).result
        = Except.ok [] := by
  refine ⟨by decide, rfl, rfl⟩

/-- C8 (amended): `find_unshared_groups` performs no identifier validation:
for every user identifier — including ones that break script-string
interpolation — the first script handed to the transport is the summary
template with the identifier interpolated verbatim and unescaped. -/
theorem C8_no_validation (d : VKData) (uid : String) (th : Int) (rn : Bool)
    (gs fs fls fims : Nat) :
    (find_unshared_groups d uid th rn gs fs fls fims).scriptsSent.head?
      = some (GET_MAIN_USER_INFO_REQUEST_CODE uid (toString gs)
          (toString fs)) := by
  unfold find_unshared_groups
  by_cases h1 : (runSummaryScript d gs fs).user.isEmpty = true
  · simp [h1]
  · by_cases h2 :
      ((runSummaryScript d gs fs).user.headI.deactivated).isSome = true
    · simp [h1, h2]
    · simp [h1, h2]

/-- C9 as stated is false: on a run over an existing user with 0 groups the
progress sequence is not `[0, 100]` — the code reports
`progress_status = (0 + 1) / 100 = 0.01` between the two. -/
theorem C9_counterexample :
    (find_unshared_groups dataZeroGroups "z" 0 true 1 1 1 1).progressCalls
      ≠ [0, 100] := by
  rw [find_unshared_groups_ok dataZeroGroups "z" 0 true 1 1 1 1 (by decide)
    rfl (by norm_num)]
  intro h
  have hlen := congrArg List.length h
  simp [dataZeroGroups] at hlen

/-- C9 (amended): on a run over an existing, non-deactivated user with 0
groups the result list is empty and the progress sequence is exactly
`[0, 0.01, 100]` (three calls: start, after the summary fetch, completion). -/
theorem C9_zero_groups (d : VKData) (uid : String) (th : Int) (rn : Bool)
    (gs fs fls fims : Nat)
    (hu : d.users ≠ []) (hd : d.users.headI.deactivated = none)
    (hg0 : d.groupsList = []) (hgs : 1 ≤ gs) :
    (find_unshared_groups d uid th rn gs fs fls fims).result = Except.ok []
    ∧ (find_unshared_groups d uid th rn gs fs fls fims).progressCalls
        = [0, 1 / 100, 100] := by
  rw [find_unshared_groups_ok d uid th rn gs fs fls fims hu hd hgs, hg0]
  refine ⟨rfl, ?_⟩
  show (0 : Rat) :: (List.range (List.length ([] : List Nat) + 1)).map
      (progressValue (List.length ([] : List Nat))) ++ [100] = [0, 1 / 100, 100]
  norm_num [progressValue, List.range_succ]

/-- Witness for C9 (amended) at a concrete 0-group user. -/
theorem C9_witness :
    dataZeroGroups.users ≠ []
    ∧ dataZeroGroups.groupsList = []
    ∧ ((find_unshared_groups dataZeroGroups "z" 0 false 1 1 1 1).result
          = Except.ok []
      ∧ (find_unshared_groups dataZeroGroups "z" 0 false 1 1 1 1).progressCalls
          = [0, 1 / 100, 100]) :=
  ⟨by decide, rfl,
    C9_zero_groups dataZeroGroups "z" 0 false 1 1 1 1 (by decide) rfl rfl
      (by norm_num)⟩

/-- C10: with `request_repeat ≤ 0` the attempt loop body never executes, no
request is issued (0 attempts), and `do_execute_request` fails with the
undocumented `AttributeError` on the still-`None` response instead of
returning a value or raising the documented request error; with
`request_repeat ≥ 1` that failure mode is impossible. -/
theorem C10_nonpositive_repeat {V : Type} (request_repeat : Int)
    (att : Nat → AttemptOutcome V) :
    (request_repeat ≤ 0 →
        do_execute_request request_repeat att = (0, ExecOutcome.noneTypeError))
    ∧ (1 ≤ request_repeat →
        (do_execute_request request_repeat att).2
          ≠ ExecOutcome.noneTypeError) := by
  constructor
  · intro h
    have h0 : request_repeat.toNat = 0 := by omega
    unfold do_execute_request
    rw [h0]
    rfl
  · intro h
    have h1 : 1 ≤ request_repeat.toNat := by omega
    unfold do_execute_request
    exact execLoop_ne_noneTypeError att request_repeat.toNat 0 h1

/-- Witness for C10: `request_repeat = -3` performs 0 attempts and hits the
`None`-response failure even though every attempt would succeed; with
`request_repeat = 1` the failure mode does not occur. -/
theorem C10_witness :
    do_execute_request (-3) attAlwaysOk = (0, ExecOutcome.noneTypeError)
    ∧ (do_execute_request 1 attAlwaysOk).2 ≠ ExecOutcome.noneTypeError :=
  ⟨(C10_nonpositive_repeat (-3) attAlwaysOk).1 (by norm_num),
   (C10_nonpositive_repeat 1 attAlwaysOk).2 (by norm_num)⟩
